import Mathlib

set_option linter.unusedVariables false
set_option maxRecDepth 100000

/-!
Verification of the CIFAR-10 model-definition files of the imgclsmob
repository: `gluon/gluoncv2/models/wrn_cifar10.py`,
`pytorch/pytorchcv/models/wrn_cifar10.py` and
`pytorch/pytorchcv/models/resnext_cifar10.py`.

Each file is embedded separately (namespaces `GluonWrn`, `TorchWrn`,
`TorchResNeXt`), mirroring its `__init__` assembly loops, its factory
(`get_wrn` / `get_resnext_cifar10`) with the divisibility assertion and the
ValueError branch for pretrained loading, and its named constructors.
Integer arithmetic on the `blocks` argument uses `Int` with Lean's `%` and
`/`, which agree with Python's `%` and `//` for a positive divisor; Python's
`[x] * k` for an integer `k` yields the empty list when `k <= 0`, matching
`List.replicate k.toNat x`.
-/

namespace ImgClsMob

/-- Shape of a tensor, outermost dimension first. -/
abbrev TensorShape := List Nat

/-- Number of scalar entries in a tensor of the given shape. -/
def TensorShape.numel (s : TensorShape) : Nat := s.prod

/-- Result of calling a model factory: `ok net touched` returns the
constructed network together with a flag recording whether the pretrained
model store was contacted; `assertionError` models a failing `assert`;
`valueError` models the raised `ValueError`. -/
inductive Outcome (α : Type) where
  | ok : α → Bool → Outcome α
  | assertionError : Outcome α
  | valueError : Outcome α
  deriving DecidableEq

/-- The constructed network of a factory call, when one is returned. -/
def Outcome.netOf {α : Type} : Outcome α → Option α
  | .ok net _ => some net
  | .assertionError => none
  | .valueError => none

/-- Whether the factory call contacted the pretrained model store. -/
def Outcome.storeTouched {α : Type} : Outcome α → Bool
  | .ok _ touched => touched
  | .assertionError => false
  | .valueError => false

/-- Apply a function to the constructed network, keeping the error cases. -/
def Outcome.mapNet {α β : Type} (f : α → β) : Outcome α → Outcome β
  | .ok net touched => .ok (f net) touched
  | .assertionError => .assertionError
  | .valueError => .valueError

/-- The value of the threaded `in_channels` variable after iterating over a
channel list: the last element when the list is nonempty, the initial value
otherwise. -/
def lastOut (c : Nat) (cs : List Nat) : Nat := cs.foldl (fun _ x => x) c

/-- The `(in_channels, out_channels)` chain condition on a flattened list of
units: the first unit starts at `c` and every later unit starts where the
previous one ended. -/
def chainFrom (c : Nat) : List (Nat × Nat) → Prop
  | [] => True
  | p :: rest => p.1 = c ∧ chainFrom p.2 rest

/-- Shape of an activation tensor: batch, channels, height, width. -/
structure ActShape where
  n : Nat
  c : Nat
  h : Nat
  w : Nat
  deriving DecidableEq

/-- Modelled from the spec: spatial output size of a convolution or pooling
window of size `k`, stride `s` and padding `pad` applied to extent `h`; the
external framework rejects windows larger than the padded input. -/
def winDim (h k s pad : Nat) : Option Nat :=
  if k ≤ h + 2 * pad ∧ 1 ≤ s then some ((h + 2 * pad - k) / s + 1) else none

/-- Modelled from the spec: shape semantics of a 2d convolution with square
kernel `k`, stride `s` and padding `pad`; the channel count of the input
must match `in_channels`. -/
def conv2dShape (in_channels out_channels k s pad : Nat) (x : ActShape) :
    Option ActShape := do
  if x.c = in_channels then
    let h ← winDim x.h k s pad
    let w ← winDim x.w k s pad
    some ⟨x.n, out_channels, h, w⟩
  else none

/-- Configuration-level view of a WRN network, shared between the Gluon and
PyTorch embeddings so that the two can be compared: the initial block's
output channels, every unit as an `(in_channels, out_channels, stride)`
triple grouped by stage, and the input feature count of the final
classifier layer. -/
structure NetConfig where
  init_block_channels : Nat
  units : List (List (Nat × Nat × Nat))
  output_in_features : Nat
  deriving DecidableEq

namespace TorchWrn

/-- One `PreResUnit` as instantiated by the PyTorch `CIFAR10WRN.__init__`
loop (`bottleneck=False`, `conv1_stride=False` are fixed there). -/
structure PreResUnit where
  in_channels : Nat
  out_channels : Nat
  stride : Nat
  deriving DecidableEq

def PreResUnit.toPair (u : PreResUnit) : Nat × Nat :=
  (u.in_channels, u.out_channels)

def PreResUnit.toTriple (u : PreResUnit) : Nat × Nat × Nat :=
  (u.in_channels, u.out_channels, u.stride)

/-- The inner loop of `CIFAR10WRN.__init__` over `channels_per_stage`:
unit `j` of stage `i` gets stride 2 when `j == 0` and `i != 0`, stride 1
otherwise, and the threaded `in_channels` is the previous unit's
`out_channels`. -/
def stageUnits (i : Nat) (in_channels : Nat) (j : Nat) :
    List Nat → List PreResUnit
  | [] => []
  | out_channels :: rest =>
      { in_channels := in_channels, out_channels := out_channels,
        stride := if j = 0 ∧ i ≠ 0 then 2 else 1 } ::
        stageUnits i out_channels (j + 1) rest

/-- The outer loop of `CIFAR10WRN.__init__` over `channels`: stage `i` is
assembled from `channels[i]` and `in_channels` is threaded across stages. -/
def stagesUnits (i : Nat) (in_channels : Nat) :
    List (List Nat) → List (List PreResUnit)
  | [] => []
  | cps :: rest =>
      stageUnits i in_channels 0 cps ::
        stagesUnits (i + 1) (lastOut in_channels cps) rest

/-- The PyTorch `CIFAR10WRN` module as assembled by `__init__`: an
unparameterized `BatchNorm2d(affine=False)` on `in_channels`, a
`conv3x3_block` to `init_block_channels`, the staged `PreResUnit`s, a
`PreResActivation`, an 8x8 average pool and the final
`Linear(in_features=in_channels, out_features=num_classes)`, where the
final threaded `in_channels` is the last entry of the flattened channel
list. -/
structure CIFAR10WRN where
  in_channels : Nat
  init_block_channels : Nat
  stages : List (List PreResUnit)
  post_activ_channels : Nat
  output_in_features : Nat
  num_classes : Nat
  deriving DecidableEq

def CIFAR10WRN.make (channels : List (List Nat)) (init_block_channels : Nat)
    (in_channels : Nat) (num_classes : Nat) : CIFAR10WRN :=
  { in_channels := in_channels
    init_block_channels := init_block_channels
    stages := stagesUnits 0 init_block_channels channels
    post_activ_channels := lastOut init_block_channels channels.flatten
    output_in_features := lastOut init_block_channels channels.flatten
    num_classes := num_classes }

def CIFAR10WRN.config (net : CIFAR10WRN) : NetConfig :=
  { init_block_channels := net.init_block_channels
    units := net.stages.map (List.map PreResUnit.toTriple)
    output_in_features := net.output_in_features }

/-- The factory `get_wrn` of the PyTorch file: it asserts
`(blocks - 4) % 6 == 0`, derives `layers = [(blocks - 4) // 6] * 3` and
`channels = [[ci * width_factor] * li for (ci, li) in zip([16, 32, 64],
layers)]`, builds the net with `init_block_channels = 16`, and only when
`pretrained` is set checks `model_name` (raising `ValueError` when it is
`None` or empty) before contacting the model store; `root` is used only as
the store path. -/
def get_wrn (blocks : Int) (width_factor : Nat) (model_name : Option String)
    (pretrained : Bool) (root : String) : Outcome CIFAR10WRN :=
  if (blocks - 4) % 6 = 0 then
    let layers : List Int := List.replicate 3 ((blocks - 4) / 6)
    let channels_per_layers : List Nat := [16, 32, 64]
    let channels : List (List Nat) :=
      (channels_per_layers.zip layers).map fun ci_li =>
        List.replicate ci_li.2.toNat (ci_li.1 * width_factor)
    let net := CIFAR10WRN.make channels 16 3 10
    if pretrained then
      if model_name = none ∨ model_name = some "" then Outcome.valueError
      else Outcome.ok net true
    else Outcome.ok net false
  else Outcome.assertionError

def wrn16_10_cifar10 (pretrained : Bool) (root : String) : Outcome CIFAR10WRN :=
  get_wrn 16 10 (some "wrn16_10_cifar10") pretrained root

def wrn28_10_cifar10 (pretrained : Bool) (root : String) : Outcome CIFAR10WRN :=
  get_wrn 28 10 (some "wrn28_10_cifar10") pretrained root

def wrn40_8_cifar10 (pretrained : Bool) (root : String) : Outcome CIFAR10WRN :=
  get_wrn 40 8 (some "wrn40_8_cifar10") pretrained root

/-- Modelled from the spec: `PreResUnit` lives in the sibling module
`preresnet`, which is not among the given sources; the spec describes it as
a reused residual-unit layer block. With `bottleneck=False` and
`conv1_stride=False` it holds two pre-activation blocks, each an affine
batch-norm followed by a bias-free 3x3 convolution (the first at the
unit's stride), plus a bias-free 1x1 convolution on the identity branch
when the unit changes channel count or stride. Trainable parameter shapes
in module order. -/
def PreResUnit.paramShapes (u : PreResUnit) : List TensorShape :=
  [[u.in_channels], [u.in_channels],
   [u.out_channels, u.in_channels, 3, 3],
   [u.out_channels], [u.out_channels],
   [u.out_channels, u.out_channels, 3, 3]] ++
  (if u.in_channels ≠ u.out_channels ∨ u.stride ≠ 1 then
    [[u.out_channels, u.in_channels, 1, 1]]
  else [])

/-- Modelled from the spec: `conv3x3_block` lives in the sibling module
`common`, which is not among the given sources; it is a bias-free 3x3
convolution (stride 1, padding 1) followed by an affine batch-norm.
`BatchNorm2d(affine=False)` holds no trainable parameters;
`PreResActivation` holds one affine batch-norm; `nn.Linear` holds a weight
and a bias. Trainable parameter shapes of the whole net in module order. -/
def CIFAR10WRN.paramShapes (net : CIFAR10WRN) : List TensorShape :=
  [[net.init_block_channels, net.in_channels, 3, 3],
   [net.init_block_channels], [net.init_block_channels]] ++
  (net.stages.flatten.map PreResUnit.paramShapes).flatten ++
  [[net.post_activ_channels], [net.post_activ_channels]] ++
  [[net.num_classes, net.output_in_features], [net.num_classes]]

/-- Total count of trainable parameters, as in the file's `_calc_width`. -/
def CIFAR10WRN.weightCount (net : CIFAR10WRN) : Nat :=
  (net.paramShapes.map TensorShape.numel).sum

/-- Modelled from the spec: forward shape of a `PreResUnit` (module
`preresnet`, not among the given sources). The body applies a 3x3
convolution at the unit's stride with padding 1, then a 3x3 convolution at
stride 1 with padding 1; the identity branch applies a 1x1 convolution at
the unit's stride when reshaping and is the input otherwise; the residual
addition requires both branches to agree. -/
def PreResUnit.forwardShape (u : PreResUnit) (x : ActShape) :
    Option ActShape := do
  let b1 ← conv2dShape u.in_channels u.out_channels 3 u.stride 1 x
  let body ← conv2dShape u.out_channels u.out_channels 3 1 1 b1
  let identity ←
    if u.in_channels ≠ u.out_channels ∨ u.stride ≠ 1 then
      conv2dShape u.in_channels u.out_channels 1 u.stride 0 x
    else some x
  if body = identity then some body else none

/-- Forward shape of the whole PyTorch `CIFAR10WRN`: the initial batch-norm
and `conv3x3_block`, the stages, the `PreResActivation` batch-norm, the
`AvgPool2d(kernel_size=8, stride=1)`, the `view(x.size(0), -1)` flatten and
the final `Linear`, which requires the flattened feature count to match its
`in_features`. -/
def CIFAR10WRN.forwardShape (net : CIFAR10WRN) (x : ActShape) :
    Option (Nat × Nat) := do
  let x0 ← if x.c = net.in_channels then some x else none
  let x1 ← conv2dShape net.in_channels net.init_block_channels 3 1 1 x0
  let x2 ← net.stages.foldlM
    (fun a stage => stage.foldlM (fun b u => u.forwardShape b) a) x1
  let x3 ← if x2.c = net.post_activ_channels then some x2 else none
  let h ← winDim x3.h 8 1 0
  let w ← winDim x3.w 8 1 0
  if x3.c * h * w = net.output_in_features then
    some (x3.n, net.num_classes)
  else none

end TorchWrn

namespace GluonWrn

/-- One `PreResUnit` as instantiated by the Gluon `CIFAR10WRN.__init__`
loop (`bottleneck=False`, `conv1_stride=False` are fixed there); the Gluon
binding calls the stride argument `strides`. -/
structure PreResUnit where
  in_channels : Nat
  out_channels : Nat
  strides : Nat
  deriving DecidableEq

def PreResUnit.toPair (u : PreResUnit) : Nat × Nat :=
  (u.in_channels, u.out_channels)

def PreResUnit.toTriple (u : PreResUnit) : Nat × Nat × Nat :=
  (u.in_channels, u.out_channels, u.strides)

/-- The inner loop of the Gluon `CIFAR10WRN.__init__` over
`channels_per_stage`: unit `j` of stage `i` gets strides 2 when `j == 0`
and `i != 0`, strides 1 otherwise. -/
def stageUnits (i : Nat) (in_channels : Nat) (j : Nat) :
    List Nat → List PreResUnit
  | [] => []
  | out_channels :: rest =>
      { in_channels := in_channels, out_channels := out_channels,
        strides := if j = 0 ∧ i ≠ 0 then 2 else 1 } ::
        stageUnits i out_channels (j + 1) rest

/-- The outer loop of the Gluon `CIFAR10WRN.__init__` over `channels`. -/
def stagesUnits (i : Nat) (in_channels : Nat) :
    List (List Nat) → List (List PreResUnit)
  | [] => []
  | cps :: rest =>
      stageUnits i in_channels 0 cps ::
        stagesUnits (i + 1) (lastOut in_channels cps) rest

/-- The Gluon `CIFAR10WRN` block as assembled by `__init__`: a
`BatchNorm(center=False, scale=False)` on `in_channels`, a `conv3x3_block`
to `init_block_channels`, the staged `PreResUnit`s, a `PreResActivation`,
an 8x8 average pool, then a `Flatten` and a `Dense(units=classes,
in_units=in_channels)`, where the final threaded `in_channels` is the last
entry of the flattened channel list. -/
structure CIFAR10WRN where
  in_channels : Nat
  init_block_channels : Nat
  stages : List (List PreResUnit)
  post_activ_channels : Nat
  output_in_units : Nat
  classes : Nat
  deriving DecidableEq

def CIFAR10WRN.make (channels : List (List Nat)) (init_block_channels : Nat)
    (in_channels : Nat) (classes : Nat) : CIFAR10WRN :=
  { in_channels := in_channels
    init_block_channels := init_block_channels
    stages := stagesUnits 0 init_block_channels channels
    post_activ_channels := lastOut init_block_channels channels.flatten
    output_in_units := lastOut init_block_channels channels.flatten
    classes := classes }

def CIFAR10WRN.config (net : CIFAR10WRN) : NetConfig :=
  { init_block_channels := net.init_block_channels
    units := net.stages.map (List.map PreResUnit.toTriple)
    output_in_features := net.output_in_units }

/-- The factory `get_wrn` of the Gluon file: identical arithmetic to the
PyTorch one; it additionally takes a device context `ctx`, used only when
loading pretrained weights. -/
def get_wrn {Ctx : Type} (blocks : Int) (width_factor : Nat)
    (model_name : Option String) (pretrained : Bool) (ctx : Ctx)
    (root : String) : Outcome CIFAR10WRN :=
  if (blocks - 4) % 6 = 0 then
    let layers : List Int := List.replicate 3 ((blocks - 4) / 6)
    let channels_per_layers : List Nat := [16, 32, 64]
    let channels : List (List Nat) :=
      (channels_per_layers.zip layers).map fun ci_li =>
        List.replicate ci_li.2.toNat (ci_li.1 * width_factor)
    let net := CIFAR10WRN.make channels 16 3 10
    if pretrained then
      if model_name = none ∨ model_name = some "" then Outcome.valueError
      else Outcome.ok net true
    else Outcome.ok net false
  else Outcome.assertionError

def wrn16_10_cifar10 {Ctx : Type} (pretrained : Bool) (ctx : Ctx)
    (root : String) : Outcome CIFAR10WRN :=
  get_wrn 16 10 (some "wrn16_10_cifar10") pretrained ctx root

def wrn28_10_cifar10 {Ctx : Type} (pretrained : Bool) (ctx : Ctx)
    (root : String) : Outcome CIFAR10WRN :=
  get_wrn 28 10 (some "wrn28_10_cifar10") pretrained ctx root

def wrn40_8_cifar10 {Ctx : Type} (pretrained : Bool) (ctx : Ctx)
    (root : String) : Outcome CIFAR10WRN :=
  get_wrn 40 8 (some "wrn40_8_cifar10") pretrained ctx root

/-- Modelled from the spec: the Gluon `PreResUnit` (sibling module
`preresnet`, not among the given sources), identical in structure to the
PyTorch one: two pre-activation blocks of affine batch-norm plus bias-free
3x3 convolution, and a bias-free 1x1 convolution on the identity branch
when reshaping. Differentiable parameter shapes in block order. -/
def PreResUnit.paramShapes (u : PreResUnit) : List TensorShape :=
  [[u.in_channels], [u.in_channels],
   [u.out_channels, u.in_channels, 3, 3],
   [u.out_channels], [u.out_channels],
   [u.out_channels, u.out_channels, 3, 3]] ++
  (if u.in_channels ≠ u.out_channels ∨ u.strides ≠ 1 then
    [[u.out_channels, u.in_channels, 1, 1]]
  else [])

/-- Modelled from the spec: differentiable parameter shapes of the whole
Gluon net. `BatchNorm(center=False, scale=False)` contributes no
differentiable parameters (and running statistics are never
differentiable, so the file's `_test` skips them); `conv3x3_block`
(sibling module `common`) is a bias-free 3x3 convolution plus affine
batch-norm; `PreResActivation` holds one affine batch-norm; `Dense` holds
a `(units, in_units)` weight and a bias. -/
def CIFAR10WRN.paramShapes (net : CIFAR10WRN) : List TensorShape :=
  [[net.init_block_channels, net.in_channels, 3, 3],
   [net.init_block_channels], [net.init_block_channels]] ++
  (net.stages.flatten.map PreResUnit.paramShapes).flatten ++
  [[net.post_activ_channels], [net.post_activ_channels]] ++
  [[net.classes, net.output_in_units], [net.classes]]

/-- Total count of differentiable parameters, as in the file's `_test`. -/
def CIFAR10WRN.weightCount (net : CIFAR10WRN) : Nat :=
  (net.paramShapes.map TensorShape.numel).sum

/-- Modelled from the spec: forward shape of the Gluon `PreResUnit`,
identical to the PyTorch one. -/
def PreResUnit.forwardShape (u : PreResUnit) (x : ActShape) :
    Option ActShape := do
  let b1 ← conv2dShape u.in_channels u.out_channels 3 u.strides 1 x
  let body ← conv2dShape u.out_channels u.out_channels 3 1 1 b1
  let identity ←
    if u.in_channels ≠ u.out_channels ∨ u.strides ≠ 1 then
      conv2dShape u.in_channels u.out_channels 1 u.strides 0 x
    else some x
  if body = identity then some body else none

/-- Forward shape of the whole Gluon `CIFAR10WRN` (`hybrid_forward`): the
initial batch-norm and `conv3x3_block`, the stages, the `PreResActivation`
batch-norm, the `AvgPool2D(pool_size=8, strides=1)`, then the `Flatten`
and the `Dense`, which requires the flattened feature count to match its
`in_units`. -/
def CIFAR10WRN.forwardShape (net : CIFAR10WRN) (x : ActShape) :
    Option (Nat × Nat) := do
  let x0 ← if x.c = net.in_channels then some x else none
  let x1 ← conv2dShape net.in_channels net.init_block_channels 3 1 1 x0
  let x2 ← net.stages.foldlM
    (fun a stage => stage.foldlM (fun b u => u.forwardShape b) a) x1
  let x3 ← if x2.c = net.post_activ_channels then some x2 else none
  let h ← winDim x3.h 8 1 0
  let w ← winDim x3.w 8 1 0
  if x3.c * h * w = net.output_in_units then
    some (x3.n, net.classes)
  else none

end GluonWrn

namespace TorchResNeXt

/-- One `ResNeXtUnit` as instantiated by the PyTorch
`CIFAR10ResNeXt.__init__` loop. -/
structure ResNeXtUnit where
  in_channels : Nat
  out_channels : Nat
  stride : Nat
  cardinality : Nat
  bottleneck_width : Nat
  deriving DecidableEq

def ResNeXtUnit.toPair (u : ResNeXtUnit) : Nat × Nat :=
  (u.in_channels, u.out_channels)

/-- The inner loop of `CIFAR10ResNeXt.__init__` over `channels_per_stage`:
unit `j` of stage `i` gets stride 2 when `j == 0` and `i != 0`, stride 1
otherwise; `cardinality` and `bottleneck_width` are passed to every unit. -/
def stageUnits (cardinality bottleneck_width : Nat) (i : Nat)
    (in_channels : Nat) (j : Nat) : List Nat → List ResNeXtUnit
  | [] => []
  | out_channels :: rest =>
      { in_channels := in_channels, out_channels := out_channels,
        stride := if j = 0 ∧ i ≠ 0 then 2 else 1,
        cardinality := cardinality, bottleneck_width := bottleneck_width } ::
        stageUnits cardinality bottleneck_width i out_channels (j + 1) rest

/-- The outer loop of `CIFAR10ResNeXt.__init__` over `channels`. -/
def stagesUnits (cardinality bottleneck_width : Nat) (i : Nat)
    (in_channels : Nat) : List (List Nat) → List (List ResNeXtUnit)
  | [] => []
  | cps :: rest =>
      stageUnits cardinality bottleneck_width i in_channels 0 cps ::
        stagesUnits cardinality bottleneck_width (i + 1)
          (lastOut in_channels cps) rest

/-- The PyTorch `CIFAR10ResNeXt` module as assembled by `__init__`: a
`conv3x3_block` to `init_block_channels`, the staged `ResNeXtUnit`s, an
8x8 average pool and the final `Linear(in_features=in_channels,
out_features=num_classes)`. -/
structure CIFAR10ResNeXt where
  in_channels : Nat
  init_block_channels : Nat
  stages : List (List ResNeXtUnit)
  output_in_features : Nat
  num_classes : Nat
  deriving DecidableEq

def CIFAR10ResNeXt.make (channels : List (List Nat))
    (init_block_channels cardinality bottleneck_width : Nat)
    (in_channels : Nat) (num_classes : Nat) : CIFAR10ResNeXt :=
  { in_channels := in_channels
    init_block_channels := init_block_channels
    stages := stagesUnits cardinality bottleneck_width 0
      init_block_channels channels
    output_in_features := lastOut init_block_channels channels.flatten
    num_classes := num_classes }

/-- The factory `get_resnext_cifar10`: it asserts `(blocks - 2) % 9 == 0`,
derives `layers = [(blocks - 2) // 9] * 3` and `channels = [[ci] * li for
(ci, li) in zip([256, 512, 1024], layers)]`, builds the net with
`init_block_channels = 64`, and only when `pretrained` is set checks
`model_name` (raising `ValueError` when it is `None` or empty) before
contacting the model store. -/
def get_resnext_cifar10 (blocks : Int) (cardinality bottleneck_width : Nat)
    (model_name : Option String) (pretrained : Bool) (root : String) :
    Outcome CIFAR10ResNeXt :=
  if (blocks - 2) % 9 = 0 then
    let layers : List Int := List.replicate 3 ((blocks - 2) / 9)
    let channels_per_layers : List Nat := [256, 512, 1024]
    let channels : List (List Nat) :=
      (channels_per_layers.zip layers).map fun ci_li =>
        List.replicate ci_li.2.toNat ci_li.1
    let net := CIFAR10ResNeXt.make channels 64 cardinality
      bottleneck_width 3 10
    if pretrained then
      if model_name = none ∨ model_name = some "" then Outcome.valueError
      else Outcome.ok net true
    else Outcome.ok net false
  else Outcome.assertionError

def resnext29_32x4d_cifar10 (pretrained : Bool) (root : String) :
    Outcome CIFAR10ResNeXt :=
  get_resnext_cifar10 29 32 4 (some "resnext29_32x4d_cifar10")
    pretrained root

def resnext29_16x64d_cifar10 (pretrained : Bool) (root : String) :
    Outcome CIFAR10ResNeXt :=
  get_resnext_cifar10 29 16 64 (some "resnext29_16x64d_cifar10")
    pretrained root

/-- Modelled from the spec: the bottleneck group width of a `ResNeXtUnit`
(sibling module `resnext`, not among the given sources):
`cardinality * floor((out_channels / 4) * bottleneck_width / 64)`. -/
def ResNeXtUnit.group_width (u : ResNeXtUnit) : Nat :=
  u.cardinality * (u.out_channels / 4 * u.bottleneck_width / 64)

/-- Modelled from the spec: `ResNeXtUnit` (sibling module `resnext`, not
among the given sources) is a grouped-convolution bottleneck: a 1x1 block
to the group width, a grouped 3x3 block (groups = cardinality) at the
unit's stride, a 1x1 block to `out_channels`, plus a 1x1 block on the
identity branch when the unit changes channel count or stride; each block
is a bias-free convolution followed by an affine batch-norm. Trainable
parameter shapes in module order. -/
def ResNeXtUnit.paramShapes (u : ResNeXtUnit) : List TensorShape :=
  let gw := u.group_width
  [[gw, u.in_channels, 1, 1], [gw], [gw],
   [gw, gw / u.cardinality, 3, 3], [gw], [gw],
   [u.out_channels, gw, 1, 1], [u.out_channels], [u.out_channels]] ++
  (if u.in_channels ≠ u.out_channels ∨ u.stride ≠ 1 then
    [[u.out_channels, u.in_channels, 1, 1],
     [u.out_channels], [u.out_channels]]
  else [])

/-- Modelled from the spec: trainable parameter shapes of the whole
`CIFAR10ResNeXt`: `conv3x3_block` (bias-free 3x3 convolution plus affine
batch-norm), the units, and the final `Linear` weight and bias. -/
def CIFAR10ResNeXt.paramShapes (net : CIFAR10ResNeXt) : List TensorShape :=
  [[net.init_block_channels, net.in_channels, 3, 3],
   [net.init_block_channels], [net.init_block_channels]] ++
  (net.stages.flatten.map ResNeXtUnit.paramShapes).flatten ++
  [[net.num_classes, net.output_in_features], [net.num_classes]]

/-- Total count of trainable parameters, as in the file's `_calc_width`. -/
def CIFAR10ResNeXt.weightCount (net : CIFAR10ResNeXt) : Nat :=
  (net.paramShapes.map TensorShape.numel).sum

/-- Modelled from the spec: forward shape of a `ResNeXtUnit`: 1x1
convolution, grouped 3x3 convolution at the unit's stride with padding 1,
1x1 convolution; the identity branch applies a 1x1 convolution at the
unit's stride when reshaping and is the input otherwise; the residual
addition requires both branches to agree. -/
def ResNeXtUnit.forwardShape (u : ResNeXtUnit) (x : ActShape) :
    Option ActShape := do
  let gw := u.group_width
  let b1 ← conv2dShape u.in_channels gw 1 1 0 x
  let b2 ← conv2dShape gw gw 3 u.stride 1 b1
  let body ← conv2dShape gw u.out_channels 1 1 0 b2
  let identity ←
    if u.in_channels ≠ u.out_channels ∨ u.stride ≠ 1 then
      conv2dShape u.in_channels u.out_channels 1 u.stride 0 x
    else some x
  if body = identity then some body else none

/-- Forward shape of the whole `CIFAR10ResNeXt`: the `conv3x3_block`, the
stages, the `AvgPool2d(kernel_size=8, stride=1)`, the `view(x.size(0),
-1)` flatten and the final `Linear`. -/
def CIFAR10ResNeXt.forwardShape (net : CIFAR10ResNeXt) (x : ActShape) :
    Option (Nat × Nat) := do
  let x1 ← conv2dShape net.in_channels net.init_block_channels 3 1 1 x
  let x2 ← net.stages.foldlM
    (fun a stage => stage.foldlM (fun b u => u.forwardShape b) a) x1
  let h ← winDim x2.h 8 1 0
  let w ← winDim x2.w 8 1 0
  if x2.c * h * w = net.output_in_features then
    some (x2.n, net.num_classes)
  else none

end TorchResNeXt

/-- The claimed stride rule, checked over the assembled stages: a unit has
stride 2 exactly when it is first in its stage and its stage is not the
first, and stride 1 otherwise. -/
def TorchWrn.stridesOK (stages : List (List TorchWrn.PreResUnit)) : Bool :=
  stages.enum.all fun p =>
    p.2.enum.all fun q =>
      q.2.stride == if q.1 = 0 ∧ p.1 ≠ 0 then 2 else 1

/-- The claimed stride rule for the Gluon binding, checked over the
assembled stages. -/
def GluonWrn.stridesOK (stages : List (List GluonWrn.PreResUnit)) : Bool :=
  stages.enum.all fun p =>
    p.2.enum.all fun q =>
      q.2.strides == if q.1 = 0 ∧ p.1 ≠ 0 then 2 else 1

/-- The channel value reached after walking a list of
`(in_channels, out_channels)` pairs, starting from `c`. -/
def endOf (c : Nat) (l : List (Nat × Nat)) : Nat :=
  l.foldl (fun _ p => p.2) c

theorem chainFrom_append (l1 : List (Nat × Nat)) :
    ∀ (c : Nat) (l2 : List (Nat × Nat)), chainFrom c l1 →
      chainFrom (endOf c l1) l2 → chainFrom c (l1 ++ l2) := by
  induction l1 with
  | nil => intro c l2 _ h2; exact h2
  | cons p t ih =>
      intro c l2 h1 h2
      exact ⟨h1.1, ih p.2 l2 h1.2 h2⟩

theorem lastOut_getLast : ∀ (l : List Nat) (c : Nat),
    lastOut c l = (l.getLast?).getD c
  | [], _ => rfl
  | [_], _ => rfl
  | x :: y :: s, c => by
      rw [List.getLast?_cons_cons]
      have h := lastOut_getLast (y :: s) x
      have hx : lastOut c (x :: y :: s) = lastOut x (y :: s) := rfl
      rw [hx, h]
      cases hs : (y :: s).getLast? with
      | none => simp at hs
      | some z => rfl

namespace TorchWrn

theorem outs_stageUnits_tw (cs : List Nat) :
    ∀ i c j, (stageUnits i c j cs).map PreResUnit.out_channels = cs := by
  induction cs with
  | nil => intro i c j; rfl
  | cons x rest ih =>
      intro i c j
      simp only [stageUnits, List.map_cons, List.cons.injEq]
      refine ⟨?_, ih i x (j + 1)⟩
      trivial

theorem outs_stagesUnits_tw (channels : List (List Nat)) :
    ∀ i c, (stagesUnits i c channels).map (List.map PreResUnit.out_channels)
      = channels := by
  induction channels with
  | nil => intro i c; rfl
  | cons cps rest ih =>
      intro i c
      simp only [stagesUnits, List.map_cons, List.cons.injEq]
      exact ⟨outs_stageUnits_tw cps i c 0, ih (i + 1) (lastOut c cps)⟩

theorem chain_stageUnits_tw (cs : List Nat) :
    ∀ i c j, chainFrom c ((stageUnits i c j cs).map PreResUnit.toPair) := by
  induction cs with
  | nil => intro i c j; trivial
  | cons x rest ih =>
      intro i c j
      simp only [stageUnits, List.map_cons, chainFrom]
      exact ⟨rfl, ih i x (j + 1)⟩

theorem endOf_stageUnits_tw (cs : List Nat) :
    ∀ i c j, endOf c ((stageUnits i c j cs).map PreResUnit.toPair)
      = lastOut c cs := by
  induction cs with
  | nil => intro i c j; rfl
  | cons x rest ih =>
      intro i c j
      exact ih i x (j + 1)

theorem chain_stagesUnits_tw (channels : List (List Nat)) :
    ∀ i c, chainFrom c
      ((stagesUnits i c channels).flatten.map PreResUnit.toPair) := by
  induction channels with
  | nil => intro i c; trivial
  | cons cps rest ih =>
      intro i c
      simp only [stagesUnits, List.flatten_cons, List.map_append]
      refine chainFrom_append _ c _ (chain_stageUnits_tw cps i c 0) ?_
      rw [endOf_stageUnits_tw cps i c 0]
      exact ih (i + 1) (lastOut c cps)

end TorchWrn

namespace GluonWrn

theorem outs_stageUnits_gw (cs : List Nat) :
    ∀ i c j, (stageUnits i c j cs).map PreResUnit.out_channels = cs := by
  induction cs with
  | nil => intro i c j; rfl
  | cons x rest ih =>
      intro i c j
      simp only [stageUnits, List.map_cons, List.cons.injEq]
      refine ⟨?_, ih i x (j + 1)⟩
      trivial

theorem outs_stagesUnits_gw (channels : List (List Nat)) :
    ∀ i c, (stagesUnits i c channels).map (List.map PreResUnit.out_channels)
      = channels := by
  induction channels with
  | nil => intro i c; rfl
  | cons cps rest ih =>
      intro i c
      simp only [stagesUnits, List.map_cons, List.cons.injEq]
      exact ⟨outs_stageUnits_gw cps i c 0, ih (i + 1) (lastOut c cps)⟩

theorem chain_stageUnits_gw (cs : List Nat) :
    ∀ i c j, chainFrom c ((stageUnits i c j cs).map PreResUnit.toPair) := by
  induction cs with
  | nil => intro i c j; trivial
  | cons x rest ih =>
      intro i c j
      simp only [stageUnits, List.map_cons, chainFrom]
      exact ⟨rfl, ih i x (j + 1)⟩

theorem endOf_stageUnits_gw (cs : List Nat) :
    ∀ i c j, endOf c ((stageUnits i c j cs).map PreResUnit.toPair)
      = lastOut c cs := by
  induction cs with
  | nil => intro i c j; rfl
  | cons x rest ih =>
      intro i c j
      exact ih i x (j + 1)

theorem chain_stagesUnits_gw (channels : List (List Nat)) :
    ∀ i c, chainFrom c
      ((stagesUnits i c channels).flatten.map PreResUnit.toPair) := by
  induction channels with
  | nil => intro i c; trivial
  | cons cps rest ih =>
      intro i c
      simp only [stagesUnits, List.flatten_cons, List.map_append]
      refine chainFrom_append _ c _ (chain_stageUnits_gw cps i c 0) ?_
      rw [endOf_stageUnits_gw cps i c 0]
      exact ih (i + 1) (lastOut c cps)

end GluonWrn

namespace TorchResNeXt

theorem outs_stageUnits_rx (cs : List Nat) :
    ∀ card bw i c j,
      (stageUnits card bw i c j cs).map ResNeXtUnit.out_channels = cs := by
  induction cs with
  | nil => intro card bw i c j; rfl
  | cons x rest ih =>
      intro card bw i c j
      simp only [stageUnits, List.map_cons, List.cons.injEq]
      refine ⟨?_, ih card bw i x (j + 1)⟩
      trivial

theorem outs_stagesUnits_rx (channels : List (List Nat)) :
    ∀ card bw i c,
      (stagesUnits card bw i c channels).map
        (List.map ResNeXtUnit.out_channels) = channels := by
  induction channels with
  | nil => intro card bw i c; rfl
  | cons cps rest ih =>
      intro card bw i c
      simp only [stagesUnits, List.map_cons, List.cons.injEq]
      exact ⟨outs_stageUnits_rx cps card bw i c 0,
        ih card bw (i + 1) (lastOut c cps)⟩

theorem chain_stageUnits_rx (cs : List Nat) :
    ∀ card bw i c j,
      chainFrom c ((stageUnits card bw i c j cs).map ResNeXtUnit.toPair) := by
  induction cs with
  | nil => intro card bw i c j; trivial
  | cons x rest ih =>
      intro card bw i c j
      simp only [stageUnits, List.map_cons, chainFrom]
      exact ⟨rfl, ih card bw i x (j + 1)⟩

theorem endOf_stageUnits_rx (cs : List Nat) :
    ∀ card bw i c j,
      endOf c ((stageUnits card bw i c j cs).map ResNeXtUnit.toPair)
        = lastOut c cs := by
  induction cs with
  | nil => intro card bw i c j; rfl
  | cons x rest ih =>
      intro card bw i c j
      exact ih card bw i x (j + 1)

theorem chain_stagesUnits_rx (channels : List (List Nat)) :
    ∀ card bw i c, chainFrom c
      ((stagesUnits card bw i c channels).flatten.map ResNeXtUnit.toPair) := by
  induction channels with
  | nil => intro card bw i c; trivial
  | cons cps rest ih =>
      intro card bw i c
      simp only [stagesUnits, List.flatten_cons, List.map_append]
      refine chainFrom_append _ c _ (chain_stageUnits_rx cps card bw i c 0) ?_
      rw [endOf_stageUnits_rx cps card bw i c 0]
      exact ih card bw (i + 1) (lastOut c cps)

end TorchResNeXt

theorem TorchWrn.outs_flatten_tw (channels : List (List Nat)) :
    ∀ i c, (TorchWrn.stagesUnits i c channels).flatten.map
      TorchWrn.PreResUnit.out_channels = channels.flatten := by
  induction channels with
  | nil => intro i c; rfl
  | cons cps rest ih =>
      intro i c
      simp only [stagesUnits, List.flatten_cons, List.map_append]
      rw [outs_stageUnits_tw cps i c 0, ih (i + 1) (lastOut c cps)]

theorem GluonWrn.outs_flatten_gw (channels : List (List Nat)) :
    ∀ i c, (GluonWrn.stagesUnits i c channels).flatten.map
      GluonWrn.PreResUnit.out_channels = channels.flatten := by
  induction channels with
  | nil => intro i c; rfl
  | cons cps rest ih =>
      intro i c
      simp only [stagesUnits, List.flatten_cons, List.map_append]
      rw [outs_stageUnits_gw cps i c 0, ih (i + 1) (lastOut c cps)]

theorem TorchResNeXt.outs_flatten_rx (channels : List (List Nat)) :
    ∀ card bw i c, (TorchResNeXt.stagesUnits card bw i c channels).flatten.map
      TorchResNeXt.ResNeXtUnit.out_channels = channels.flatten := by
  induction channels with
  | nil => intro card bw i c; rfl
  | cons cps rest ih =>
      intro card bw i c
      simp only [stagesUnits, List.flatten_cons, List.map_append]
      rw [outs_stageUnits_rx cps card bw i c 0,
        ih card bw (i + 1) (lastOut c cps)]

theorem config_stage_eq (cs : List Nat) : ∀ i c j,
    (GluonWrn.stageUnits i c j cs).map GluonWrn.PreResUnit.toTriple
      = (TorchWrn.stageUnits i c j cs).map TorchWrn.PreResUnit.toTriple := by
  induction cs with
  | nil => intro i c j; rfl
  | cons x rest ih =>
      intro i c j
      simp only [GluonWrn.stageUnits, TorchWrn.stageUnits, List.map_cons]
      rw [ih i x (j + 1)]
      rfl

theorem config_stages_eq (channels : List (List Nat)) : ∀ i c,
    (GluonWrn.stagesUnits i c channels).map
        (List.map GluonWrn.PreResUnit.toTriple)
      = (TorchWrn.stagesUnits i c channels).map
        (List.map TorchWrn.PreResUnit.toTriple) := by
  induction channels with
  | nil => intro i c; rfl
  | cons cps rest ih =>
      intro i c
      simp only [GluonWrn.stagesUnits, TorchWrn.stagesUnits, List.map_cons]
      rw [config_stage_eq cps i c 0, ih (i + 1) (lastOut c cps)]

theorem TorchWrn.strides_stage_all_tw (cs : List Nat) : ∀ i c j,
    ((TorchWrn.stageUnits i c j cs).enumFrom j).all
      (fun q => q.2.stride == if q.1 = 0 ∧ i ≠ 0 then 2 else 1) = true := by
  induction cs with
  | nil => intro i c j; rfl
  | cons x rest ih =>
      intro i c j
      simp only [stageUnits, List.enumFrom, List.all_cons, Bool.and_eq_true]
      exact ⟨by simp, ih i x (j + 1)⟩

theorem TorchWrn.strides_stages_all_tw (channels : List (List Nat)) : ∀ i c,
    ((TorchWrn.stagesUnits i c channels).enumFrom i).all
      (fun pr => pr.2.enum.all fun q =>
        q.2.stride == if q.1 = 0 ∧ pr.1 ≠ 0 then 2 else 1) = true := by
  induction channels with
  | nil => intro i c; rfl
  | cons cps rest ih =>
      intro i c
      simp only [stagesUnits, List.enumFrom, List.all_cons, Bool.and_eq_true]
      exact ⟨strides_stage_all_tw cps i c 0, ih (i + 1) (lastOut c cps)⟩

theorem GluonWrn.strides_stage_all_gw (cs : List Nat) : ∀ i c j,
    ((GluonWrn.stageUnits i c j cs).enumFrom j).all
      (fun q => q.2.strides == if q.1 = 0 ∧ i ≠ 0 then 2 else 1) = true := by
  induction cs with
  | nil => intro i c j; rfl
  | cons x rest ih =>
      intro i c j
      simp only [stageUnits, List.enumFrom, List.all_cons, Bool.and_eq_true]
      exact ⟨by simp, ih i x (j + 1)⟩

theorem GluonWrn.strides_stages_all_gw (channels : List (List Nat)) : ∀ i c,
    ((GluonWrn.stagesUnits i c channels).enumFrom i).all
      (fun pr => pr.2.enum.all fun q =>
        q.2.strides == if q.1 = 0 ∧ pr.1 ≠ 0 then 2 else 1) = true := by
  induction channels with
  | nil => intro i c; rfl
  | cons cps rest ih =>
      intro i c
      simp only [stagesUnits, List.enumFrom, List.all_cons, Bool.and_eq_true]
      exact ⟨strides_stage_all_gw cps i c 0, ih (i + 1) (lastOut c cps)⟩

theorem TorchWrn.get_wrn_ok_tw (blocks : Int) (w : Nat) (mn : Option String)
    (p : Bool) (r : String) (net : TorchWrn.CIFAR10WRN) (t : Bool) :
    TorchWrn.get_wrn blocks w mn p r = Outcome.ok net t →
    net = TorchWrn.CIFAR10WRN.make
      ((([16, 32, 64] : List Nat).zip
        (List.replicate 3 ((blocks - 4) / 6))).map
        fun ci_li => List.replicate ci_li.2.toNat (ci_li.1 * w)) 16 3 10 := by
  intro h
  simp only [TorchWrn.get_wrn] at h
  split at h
  · split at h
    · split at h
      · simp at h
      · injection h with h1 h2; exact h1.symm
    · injection h with h1 h2; exact h1.symm
  · simp at h

theorem GluonWrn.get_wrn_ok_gw {Ctx : Type} (blocks : Int) (w : Nat)
    (mn : Option String) (p : Bool) (ctx : Ctx) (r : String)
    (net : GluonWrn.CIFAR10WRN) (t : Bool) :
    GluonWrn.get_wrn blocks w mn p ctx r = Outcome.ok net t →
    net = GluonWrn.CIFAR10WRN.make
      ((([16, 32, 64] : List Nat).zip
        (List.replicate 3 ((blocks - 4) / 6))).map
        fun ci_li => List.replicate ci_li.2.toNat (ci_li.1 * w)) 16 3 10 := by
  intro h
  simp only [GluonWrn.get_wrn] at h
  split at h
  · split at h
    · split at h
      · simp at h
      · injection h with h1 h2; exact h1.symm
    · injection h with h1 h2; exact h1.symm
  · simp at h

theorem TorchResNeXt.get_resnext_ok (blocks : Int) (card bw : Nat)
    (mn : Option String) (p : Bool) (r : String)
    (net : TorchResNeXt.CIFAR10ResNeXt) (t : Bool) :
    TorchResNeXt.get_resnext_cifar10 blocks card bw mn p r
      = Outcome.ok net t →
    net = TorchResNeXt.CIFAR10ResNeXt.make
      ((([256, 512, 1024] : List Nat).zip
        (List.replicate 3 ((blocks - 2) / 9))).map
        fun ci_li => List.replicate ci_li.2.toNat ci_li.1)
      64 card bw 3 10 := by
  intro h
  simp only [TorchResNeXt.get_resnext_cifar10] at h
  split at h
  · split at h
    · split at h
      · simp at h
      · injection h with h1 h2; exact h1.symm
    · injection h with h1 h2; exact h1.symm
  · simp at h

/-- C1: for each named constructor (in both framework bindings for WRN),
the total count of trainable parameters of the freshly constructed network
equals the literal asserted in the file's self-test: `wrn16_10_cifar10`
has 17116666, `wrn28_10_cifar10` has 36479226, `wrn40_8_cifar10` has
35748346, `resnext29_32x4d_cifar10` has 4775754 and
`resnext29_16x64d_cifar10` has 68155210. -/
theorem claim_c1 :
    (TorchWrn.wrn16_10_cifar10 false "").netOf.map
      TorchWrn.CIFAR10WRN.weightCount = some 17116666
    ∧ (TorchWrn.wrn28_10_cifar10 false "").netOf.map
      TorchWrn.CIFAR10WRN.weightCount = some 36479226
    ∧ (TorchWrn.wrn40_8_cifar10 false "").netOf.map
      TorchWrn.CIFAR10WRN.weightCount = some 35748346
    ∧ (GluonWrn.wrn16_10_cifar10 false () "").netOf.map
      GluonWrn.CIFAR10WRN.weightCount = some 17116666
    ∧ (GluonWrn.wrn28_10_cifar10 false () "").netOf.map
      GluonWrn.CIFAR10WRN.weightCount = some 36479226
    ∧ (GluonWrn.wrn40_8_cifar10 false () "").netOf.map
      GluonWrn.CIFAR10WRN.weightCount = some 35748346
    ∧ (TorchResNeXt.resnext29_32x4d_cifar10 false "").netOf.map
      TorchResNeXt.CIFAR10ResNeXt.weightCount = some 4775754
    ∧ (TorchResNeXt.resnext29_16x64d_cifar10 false "").netOf.map
      TorchResNeXt.CIFAR10ResNeXt.weightCount = some 68155210 := by
  decide

/-- C2: for every network returned by any of the five named constructors
(WRN in both framework bindings, ResNeXt in the PyTorch binding), feeding
an input of shape (1, 3, 32, 32) through the forward pass produces an
output of shape (1, 10). -/
theorem claim_c2 :
    ((TorchWrn.wrn16_10_cifar10 false "").netOf.bind fun n =>
      n.forwardShape ⟨1, 3, 32, 32⟩) = some (1, 10)
    ∧ ((TorchWrn.wrn28_10_cifar10 false "").netOf.bind fun n =>
      n.forwardShape ⟨1, 3, 32, 32⟩) = some (1, 10)
    ∧ ((TorchWrn.wrn40_8_cifar10 false "").netOf.bind fun n =>
      n.forwardShape ⟨1, 3, 32, 32⟩) = some (1, 10)
    ∧ ((GluonWrn.wrn16_10_cifar10 false () "").netOf.bind fun n =>
      n.forwardShape ⟨1, 3, 32, 32⟩) = some (1, 10)
    ∧ ((GluonWrn.wrn28_10_cifar10 false () "").netOf.bind fun n =>
      n.forwardShape ⟨1, 3, 32, 32⟩) = some (1, 10)
    ∧ ((GluonWrn.wrn40_8_cifar10 false () "").netOf.bind fun n =>
      n.forwardShape ⟨1, 3, 32, 32⟩) = some (1, 10)
    ∧ ((TorchResNeXt.resnext29_32x4d_cifar10 false "").netOf.bind fun n =>
      n.forwardShape ⟨1, 3, 32, 32⟩) = some (1, 10)
    ∧ ((TorchResNeXt.resnext29_16x64d_cifar10 false "").netOf.bind fun n =>
      n.forwardShape ⟨1, 3, 32, 32⟩) = some (1, 10) := by
  decide

/-- C3: each factory fails with its entry assertion exactly when the
divisibility invariant is violated: `get_wrn` (both bindings) requires
`(blocks - 4) % 6 == 0` and `get_resnext_cifar10` requires
`(blocks - 2) % 9 == 0`; under the invariant the assertion branch is
unreachable and construction proceeds. -/
theorem claim_c3 (blocks : Int) (w card bw : Nat) (mn : Option String)
    (p : Bool) (r : String) (Ctx : Type) (ctx : Ctx) :
    (TorchWrn.get_wrn blocks w mn p r = Outcome.assertionError
      ↔ ¬(blocks - 4) % 6 = 0)
    ∧ (GluonWrn.get_wrn blocks w mn p ctx r = Outcome.assertionError
      ↔ ¬(blocks - 4) % 6 = 0)
    ∧ (TorchResNeXt.get_resnext_cifar10 blocks card bw mn p r
        = Outcome.assertionError ↔ ¬(blocks - 2) % 9 = 0) := by
  refine ⟨?_, ?_, ?_⟩
  · by_cases h : (blocks - 4) % 6 = 0
    · simp only [TorchWrn.get_wrn, if_pos h]
      split <;> [split; skip] <;> simp [h]
    · simp only [TorchWrn.get_wrn, if_neg h]
      simp [h]
  · by_cases h : (blocks - 4) % 6 = 0
    · simp only [GluonWrn.get_wrn, if_pos h]
      split <;> [split; skip] <;> simp [h]
    · simp only [GluonWrn.get_wrn, if_neg h]
      simp [h]
  · by_cases h : (blocks - 2) % 9 = 0
    · simp only [TorchResNeXt.get_resnext_cifar10, if_pos h]
      split <;> [split; skip] <;> simp [h]
    · simp only [TorchResNeXt.get_resnext_cifar10, if_neg h]
      simp [h]

/-- C4: for every `blocks` with `(blocks - 4) % 6 == 0` and every
`width_factor`, `get_wrn` (both bindings) computes `n = (blocks - 4) // 6`
and builds exactly 3 stages whose per-unit channel lists are `[16*w]*n`,
`[32*w]*n` and `[64*w]*n`, with `init_block_channels` fixed at 16. -/
theorem claim_c4 (blocks : Int) (w : Nat) (mn : Option String) (r : String)
    (Ctx : Type) (ctx : Ctx) (h : (blocks - 4) % 6 = 0) :
    (TorchWrn.get_wrn blocks w mn false r).mapNet (fun net =>
        (net.init_block_channels,
         net.stages.map (List.map TorchWrn.PreResUnit.out_channels)))
      = Outcome.ok (16,
          [List.replicate ((blocks - 4) / 6).toNat (16 * w),
           List.replicate ((blocks - 4) / 6).toNat (32 * w),
           List.replicate ((blocks - 4) / 6).toNat (64 * w)]) false
    ∧ (GluonWrn.get_wrn blocks w mn false ctx r).mapNet (fun net =>
        (net.init_block_channels,
         net.stages.map (List.map GluonWrn.PreResUnit.out_channels)))
      = Outcome.ok (16,
          [List.replicate ((blocks - 4) / 6).toNat (16 * w),
           List.replicate ((blocks - 4) / 6).toNat (32 * w),
           List.replicate ((blocks - 4) / 6).toNat (64 * w)]) false := by
  constructor
  · have e : TorchWrn.get_wrn blocks w mn false r
        = Outcome.ok (TorchWrn.CIFAR10WRN.make
          ((([16, 32, 64] : List Nat).zip
            (List.replicate 3 ((blocks - 4) / 6))).map
            fun ci_li => List.replicate ci_li.2.toNat (ci_li.1 * w))
          16 3 10) false := by
      simp only [TorchWrn.get_wrn, if_pos h]
      rfl
    rw [e]
    simp only [Outcome.mapNet, TorchWrn.CIFAR10WRN.make]
    rw [TorchWrn.outs_stagesUnits_tw]
    rfl
  · have e : GluonWrn.get_wrn blocks w mn false ctx r
        = Outcome.ok (GluonWrn.CIFAR10WRN.make
          ((([16, 32, 64] : List Nat).zip
            (List.replicate 3 ((blocks - 4) / 6))).map
            fun ci_li => List.replicate ci_li.2.toNat (ci_li.1 * w))
          16 3 10) false := by
      simp only [GluonWrn.get_wrn, if_pos h]
      rfl
    rw [e]
    simp only [Outcome.mapNet, GluonWrn.CIFAR10WRN.make]
    rw [GluonWrn.outs_stagesUnits_gw]
    rfl

/-- C4 witness at `blocks = 16`, `width_factor = 10`. -/
theorem claim_c4_witness :
    ((16 : Int) - 4) % 6 = 0
    ∧ (TorchWrn.get_wrn 16 10 none false "").mapNet (fun net =>
        (net.init_block_channels,
         net.stages.map (List.map TorchWrn.PreResUnit.out_channels)))
      = Outcome.ok (16,
          [List.replicate (((16 : Int) - 4) / 6).toNat (16 * 10),
           List.replicate (((16 : Int) - 4) / 6).toNat (32 * 10),
           List.replicate (((16 : Int) - 4) / 6).toNat (64 * 10)]) false :=
  ⟨by decide, (claim_c4 16 10 none "" Unit () (by decide)).1⟩

/-- C5: for every `blocks` with `(blocks - 2) % 9 == 0` and any
`cardinality` and `bottleneck_width`, `get_resnext_cifar10` computes
`n = (blocks - 2) // 9` and builds exactly 3 stages whose per-unit channel
lists are `[256]*n`, `[512]*n` and `[1024]*n` with `init_block_channels`
fixed at 64; since the right-hand side does not mention `cardinality` or
`bottleneck_width`, the channel lists do not depend on them. -/
theorem claim_c5 (blocks : Int) (card bw : Nat) (mn : Option String)
    (r : String) (h : (blocks - 2) % 9 = 0) :
    (TorchResNeXt.get_resnext_cifar10 blocks card bw mn false r).mapNet
        (fun net => (net.init_block_channels,
          net.stages.map (List.map TorchResNeXt.ResNeXtUnit.out_channels)))
      = Outcome.ok (64,
          [List.replicate ((blocks - 2) / 9).toNat 256,
           List.replicate ((blocks - 2) / 9).toNat 512,
           List.replicate ((blocks - 2) / 9).toNat 1024]) false := by
  have e : TorchResNeXt.get_resnext_cifar10 blocks card bw mn false r
      = Outcome.ok (TorchResNeXt.CIFAR10ResNeXt.make
        ((([256, 512, 1024] : List Nat).zip
          (List.replicate 3 ((blocks - 2) / 9))).map
          fun ci_li => List.replicate ci_li.2.toNat ci_li.1)
        64 card bw 3 10) false := by
    simp only [TorchResNeXt.get_resnext_cifar10, if_pos h]
    rfl
  rw [e]
  simp only [Outcome.mapNet, TorchResNeXt.CIFAR10ResNeXt.make]
  rw [TorchResNeXt.outs_stagesUnits_rx]
  rfl

/-- C5 witness at `blocks = 29`, both published (cardinality,
bottleneck_width) configurations, showing the identical channel lists. -/
theorem claim_c5_witness :
    ((29 : Int) - 2) % 9 = 0
    ∧ (TorchResNeXt.get_resnext_cifar10 29 32 4 none false "").mapNet
        (fun net => (net.init_block_channels,
          net.stages.map (List.map TorchResNeXt.ResNeXtUnit.out_channels)))
      = Outcome.ok (64,
          [List.replicate (((29 : Int) - 2) / 9).toNat 256,
           List.replicate (((29 : Int) - 2) / 9).toNat 512,
           List.replicate (((29 : Int) - 2) / 9).toNat 1024]) false
    ∧ (TorchResNeXt.get_resnext_cifar10 29 16 64 none false "").mapNet
        (fun net => (net.init_block_channels,
          net.stages.map (List.map TorchResNeXt.ResNeXtUnit.out_channels)))
      = Outcome.ok (64,
          [List.replicate (((29 : Int) - 2) / 9).toNat 256,
           List.replicate (((29 : Int) - 2) / 9).toNat 512,
           List.replicate (((29 : Int) - 2) / 9).toNat 1024]) false :=
  ⟨by decide, claim_c5 29 32 4 none "" (by decide),
    claim_c5 29 16 64 none "" (by decide)⟩

/-- C6: the Gluon and PyTorch `get_wrn` bindings are equivalent at the
configuration level: for every argument vector both factories produce the
same outcome under the configuration view (identical channel structure,
`init_block_channels` and per-unit strides), and in every constructed
network a unit has stride 2 exactly when it is first in its stage and the
stage is not the first, stride 1 otherwise. -/
theorem claim_c6 (blocks : Int) (w : Nat) (mn : Option String) (p : Bool)
    (Ctx : Type) (ctx : Ctx) (rg rt : String) :
    (GluonWrn.get_wrn blocks w mn p ctx rg).mapNet GluonWrn.CIFAR10WRN.config
      = (TorchWrn.get_wrn blocks w mn p rt).mapNet TorchWrn.CIFAR10WRN.config
    ∧ ((TorchWrn.get_wrn blocks w mn p rt).netOf.all fun net =>
        TorchWrn.stridesOK net.stages) = true
    ∧ ((GluonWrn.get_wrn blocks w mn p ctx rg).netOf.all fun net =>
        GluonWrn.stridesOK net.stages) = true := by
  have hconf : ∀ ch : List (List Nat),
      GluonWrn.CIFAR10WRN.config (GluonWrn.CIFAR10WRN.make ch 16 3 10)
        = TorchWrn.CIFAR10WRN.config (TorchWrn.CIFAR10WRN.make ch 16 3 10) := by
    intro ch
    simp only [GluonWrn.CIFAR10WRN.config, TorchWrn.CIFAR10WRN.config,
      GluonWrn.CIFAR10WRN.make, TorchWrn.CIFAR10WRN.make]
    rw [config_stages_eq]
  refine ⟨?_, ?_, ?_⟩
  · by_cases h : (blocks - 4) % 6 = 0
    · simp only [GluonWrn.get_wrn, TorchWrn.get_wrn, if_pos h]
      cases p
      · simp only [Bool.false_eq_true, if_false, Outcome.mapNet]
        rw [hconf]
      · by_cases hm : mn = none ∨ mn = some ""
        · simp only [if_pos hm]
          rfl
        · simp only [if_neg hm, if_true, Outcome.mapNet]
          rw [hconf]
    · simp only [GluonWrn.get_wrn, TorchWrn.get_wrn, if_neg h]
      rfl
  · by_cases h : (blocks - 4) % 6 = 0
    · simp only [TorchWrn.get_wrn, if_pos h]
      cases p
      · simp only [Bool.false_eq_true, if_false, Outcome.netOf, Option.all,
          TorchWrn.CIFAR10WRN.make]
        exact TorchWrn.strides_stages_all_tw _ 0 16
      · by_cases hm : mn = none ∨ mn = some ""
        · simp only [if_pos hm]
          rfl
        · simp only [if_neg hm, if_true, Outcome.netOf, Option.all,
            TorchWrn.CIFAR10WRN.make]
          exact TorchWrn.strides_stages_all_tw _ 0 16
    · simp only [TorchWrn.get_wrn, if_neg h]
      rfl
  · by_cases h : (blocks - 4) % 6 = 0
    · simp only [GluonWrn.get_wrn, if_pos h]
      cases p
      · simp only [Bool.false_eq_true, if_false, Outcome.netOf, Option.all,
          GluonWrn.CIFAR10WRN.make]
        exact GluonWrn.strides_stages_all_gw _ 0 16
      · by_cases hm : mn = none ∨ mn = some ""
        · simp only [if_pos hm]
          rfl
        · simp only [if_neg hm, if_true, Outcome.netOf, Option.all,
            GluonWrn.CIFAR10WRN.make]
          exact GluonWrn.strides_stages_all_gw _ 0 16
    · simp only [GluonWrn.get_wrn, if_neg h]
      rfl

/-- C7: the parameter-tensor shapes of a constructed network are fully
determined by the hyperparameters: two networks built by the same factory
from the same `(blocks, width_factor)` — or, for ResNeXt, the same
`(blocks, cardinality, bottleneck_width)` — have identical parameter-shape
lists, whatever the values of `model_name`, `pretrained`, `root` (and
`ctx`). -/
theorem claim_c7 :
    (∀ (blocks : Int) (w : Nat) (mn1 : Option String) (p1 : Bool)
       (r1 : String) (mn2 : Option String) (p2 : Bool) (r2 : String)
       (n1 n2 : TorchWrn.CIFAR10WRN) (t1 t2 : Bool),
      TorchWrn.get_wrn blocks w mn1 p1 r1 = Outcome.ok n1 t1 →
      TorchWrn.get_wrn blocks w mn2 p2 r2 = Outcome.ok n2 t2 →
      n1.paramShapes = n2.paramShapes)
    ∧ (∀ (blocks : Int) (w : Nat) (Ctx1 Ctx2 : Type) (c1 : Ctx1) (c2 : Ctx2)
        (mn1 : Option String) (p1 : Bool) (r1 : String)
        (mn2 : Option String) (p2 : Bool) (r2 : String)
        (n1 n2 : GluonWrn.CIFAR10WRN) (t1 t2 : Bool),
      GluonWrn.get_wrn blocks w mn1 p1 c1 r1 = Outcome.ok n1 t1 →
      GluonWrn.get_wrn blocks w mn2 p2 c2 r2 = Outcome.ok n2 t2 →
      n1.paramShapes = n2.paramShapes)
    ∧ (∀ (blocks : Int) (card bw : Nat) (mn1 : Option String) (p1 : Bool)
        (r1 : String) (mn2 : Option String) (p2 : Bool) (r2 : String)
        (n1 n2 : TorchResNeXt.CIFAR10ResNeXt) (t1 t2 : Bool),
      TorchResNeXt.get_resnext_cifar10 blocks card bw mn1 p1 r1
        = Outcome.ok n1 t1 →
      TorchResNeXt.get_resnext_cifar10 blocks card bw mn2 p2 r2
        = Outcome.ok n2 t2 →
      n1.paramShapes = n2.paramShapes) := by
  refine ⟨?_, ?_, ?_⟩
  · intro blocks w mn1 p1 r1 mn2 p2 r2 n1 n2 t1 t2 h1 h2
    rw [TorchWrn.get_wrn_ok_tw blocks w mn1 p1 r1 n1 t1 h1,
      TorchWrn.get_wrn_ok_tw blocks w mn2 p2 r2 n2 t2 h2]
  · intro blocks w Ctx1 Ctx2 c1 c2 mn1 p1 r1 mn2 p2 r2 n1 n2 t1 t2 h1 h2
    rw [GluonWrn.get_wrn_ok_gw blocks w mn1 p1 c1 r1 n1 t1 h1,
      GluonWrn.get_wrn_ok_gw blocks w mn2 p2 c2 r2 n2 t2 h2]
  · intro blocks card bw mn1 p1 r1 mn2 p2 r2 n1 n2 t1 t2 h1 h2
    rw [TorchResNeXt.get_resnext_ok blocks card bw mn1 p1 r1 n1 t1 h1,
      TorchResNeXt.get_resnext_ok blocks card bw mn2 p2 r2 n2 t2 h2]

/-- C7 witness: a pretrained call (store contacted) and a default call to
the same factory with differing `model_name` and `root` yield the same
parameter shapes, for all three factories at their published configs. -/
theorem claim_c7_witness :
    (TorchWrn.get_wrn 16 10 (some "wrn16_10_cifar10") true "a").netOf.map
        TorchWrn.CIFAR10WRN.paramShapes
      = (TorchWrn.get_wrn 16 10 none false "b").netOf.map
        TorchWrn.CIFAR10WRN.paramShapes
    ∧ (GluonWrn.get_wrn 16 10 (some "wrn16_10_cifar10") true () "a").netOf.map
        GluonWrn.CIFAR10WRN.paramShapes
      = (GluonWrn.get_wrn 16 10 none false () "b").netOf.map
        GluonWrn.CIFAR10WRN.paramShapes
    ∧ (TorchResNeXt.get_resnext_cifar10 29 32 4 (some "resnext29_32x4d_cifar10")
        true "a").netOf.map TorchResNeXt.CIFAR10ResNeXt.paramShapes
      = (TorchResNeXt.get_resnext_cifar10 29 32 4 none false "b").netOf.map
        TorchResNeXt.CIFAR10ResNeXt.paramShapes := by
  refine ⟨?_, ?_, ?_⟩
  · cases hA : TorchWrn.get_wrn 16 10 (some "wrn16_10_cifar10") true "a" with
    | ok n1 t1 =>
        cases hB : TorchWrn.get_wrn 16 10 none false "b" with
        | ok n2 t2 =>
            have h := claim_c7.1 16 10 (some "wrn16_10_cifar10") true "a"
              none false "b" n1 n2 t1 t2 hA hB
            simp [Outcome.netOf, h]
        | assertionError => exact absurd hB (by decide)
        | valueError => exact absurd hB (by decide)
    | assertionError => exact absurd hA (by decide)
    | valueError => exact absurd hA (by decide)
  · cases hA : GluonWrn.get_wrn 16 10 (some "wrn16_10_cifar10") true () "a" with
    | ok n1 t1 =>
        cases hB : GluonWrn.get_wrn 16 10 none false () "b" with
        | ok n2 t2 =>
            have h := claim_c7.2.1 16 10 Unit Unit () ()
              (some "wrn16_10_cifar10") true "a" none false "b" n1 n2 t1 t2 hA hB
            simp [Outcome.netOf, h]
        | assertionError => exact absurd hB (by decide)
        | valueError => exact absurd hB (by decide)
    | assertionError => exact absurd hA (by decide)
    | valueError => exact absurd hA (by decide)
  · cases hA : TorchResNeXt.get_resnext_cifar10 29 32 4
        (some "resnext29_32x4d_cifar10") true "a" with
    | ok n1 t1 =>
        cases hB : TorchResNeXt.get_resnext_cifar10 29 32 4 none false "b" with
        | ok n2 t2 =>
            have h := claim_c7.2.2 29 32 4 (some "resnext29_32x4d_cifar10")
              true "a" none false "b" n1 n2 t1 t2 hA hB
            simp [Outcome.netOf, h]
        | assertionError => exact absurd hB (by decide)
        | valueError => exact absurd hB (by decide)
    | assertionError => exact absurd hA (by decide)
    | valueError => exact absurd hA (by decide)

/-- C8 counterexample: at `blocks = 5`, `pretrained = True` and
`model_name = None` the claimed right-hand side (pretrained and a missing
model name) holds, yet `get_wrn` raises `AssertionError` — the entry
assertion fires before the `model_name` check — and not `ValueError`, so
the claimed equivalence is false as stated. -/
theorem claim_c8_counterexample :
    TorchWrn.get_wrn 5 10 none true "" = Outcome.assertionError
    ∧ ¬ TorchWrn.get_wrn 5 10 none true "" = Outcome.valueError := by
  decide

/-- C8 (amended): under the respective divisibility precondition, the
factories raise `ValueError` exactly when `pretrained` is set and
`model_name` is `None` or empty; and every named constructor hardwires a
valid `blocks` and a non-empty `model_name`, so it never raises
`ValueError` for any `pretrained` value. -/
theorem claim_c8_amended :
    (∀ (blocks : Int) (w : Nat) (mn : Option String) (p : Bool) (r : String),
      (blocks - 4) % 6 = 0 →
      (TorchWrn.get_wrn blocks w mn p r = Outcome.valueError
        ↔ p = true ∧ (mn = none ∨ mn = some "")))
    ∧ (∀ (blocks : Int) (w : Nat) (mn : Option String) (p : Bool)
        (Ctx : Type) (ctx : Ctx) (r : String),
      (blocks - 4) % 6 = 0 →
      (GluonWrn.get_wrn blocks w mn p ctx r = Outcome.valueError
        ↔ p = true ∧ (mn = none ∨ mn = some "")))
    ∧ (∀ (blocks : Int) (card bw : Nat) (mn : Option String) (p : Bool)
        (r : String),
      (blocks - 2) % 9 = 0 →
      (TorchResNeXt.get_resnext_cifar10 blocks card bw mn p r
          = Outcome.valueError
        ↔ p = true ∧ (mn = none ∨ mn = some "")))
    ∧ (∀ (p : Bool) (Ctx : Type) (ctx : Ctx) (r : String),
      ¬ TorchWrn.wrn16_10_cifar10 p r = Outcome.valueError
      ∧ ¬ TorchWrn.wrn28_10_cifar10 p r = Outcome.valueError
      ∧ ¬ TorchWrn.wrn40_8_cifar10 p r = Outcome.valueError
      ∧ ¬ GluonWrn.wrn16_10_cifar10 p ctx r = Outcome.valueError
      ∧ ¬ GluonWrn.wrn28_10_cifar10 p ctx r = Outcome.valueError
      ∧ ¬ GluonWrn.wrn40_8_cifar10 p ctx r = Outcome.valueError
      ∧ ¬ TorchResNeXt.resnext29_32x4d_cifar10 p r = Outcome.valueError
      ∧ ¬ TorchResNeXt.resnext29_16x64d_cifar10 p r = Outcome.valueError) := by
  refine ⟨?_, ?_, ?_, ?_⟩
  · intro blocks w mn p r h
    simp only [TorchWrn.get_wrn, if_pos h]
    cases p
    · simp
    · by_cases hm : mn = none ∨ mn = some ""
      · simp [hm]
      · simp [hm]
  · intro blocks w mn p Ctx ctx r h
    simp only [GluonWrn.get_wrn, if_pos h]
    cases p
    · simp
    · by_cases hm : mn = none ∨ mn = some ""
      · simp [hm]
      · simp [hm]
  · intro blocks card bw mn p r h
    simp only [TorchResNeXt.get_resnext_cifar10, if_pos h]
    cases p
    · simp
    · by_cases hm : mn = none ∨ mn = some ""
      · simp [hm]
      · simp [hm]
  · intro p Ctx ctx r
    cases p <;>
      refine ⟨?_, ?_, ?_, ?_, ?_, ?_, ?_, ?_⟩ <;>
        · simp only [TorchWrn.wrn16_10_cifar10, TorchWrn.wrn28_10_cifar10,
            TorchWrn.wrn40_8_cifar10, GluonWrn.wrn16_10_cifar10,
            GluonWrn.wrn28_10_cifar10, GluonWrn.wrn40_8_cifar10,
            TorchResNeXt.resnext29_32x4d_cifar10,
            TorchResNeXt.resnext29_16x64d_cifar10,
            TorchWrn.get_wrn, GluonWrn.get_wrn,
            TorchResNeXt.get_resnext_cifar10]
          decide

/-- C8 amended witness: at `blocks = 16`, `pretrained = True` and
`model_name = None`, the amended equivalence yields the `ValueError`. -/
theorem claim_c8_amended_witness :
    TorchWrn.get_wrn 16 10 none true "" = Outcome.valueError :=
  (claim_c8_amended.1 16 10 none true "" (by decide)).mpr ⟨rfl, Or.inl rfl⟩

/-- C9: channel wiring invariant. In every assembled network the
`in_channels` of each unit equals the `out_channels` of the immediately
preceding unit (the initial block's output channels for the first unit),
and the final `Linear`/`Dense` input feature count equals the
`out_channels` of the last unit of the last stage (the initial block's
output channels when there are no units). -/
theorem claim_c9 (channels : List (List Nat)) (init inC cls card bw : Nat) :
    (chainFrom init
        ((TorchWrn.CIFAR10WRN.make channels init inC cls).stages.flatten.map
          TorchWrn.PreResUnit.toPair)
      ∧ (TorchWrn.CIFAR10WRN.make channels init inC cls).output_in_features
        = (((TorchWrn.CIFAR10WRN.make channels init inC
            cls).stages.flatten.map
            TorchWrn.PreResUnit.out_channels).getLast?).getD init)
    ∧ (chainFrom init
        ((GluonWrn.CIFAR10WRN.make channels init inC cls).stages.flatten.map
          GluonWrn.PreResUnit.toPair)
      ∧ (GluonWrn.CIFAR10WRN.make channels init inC cls).output_in_units
        = (((GluonWrn.CIFAR10WRN.make channels init inC
            cls).stages.flatten.map
            GluonWrn.PreResUnit.out_channels).getLast?).getD init)
    ∧ (chainFrom init
        ((TorchResNeXt.CIFAR10ResNeXt.make channels init card bw inC
          cls).stages.flatten.map TorchResNeXt.ResNeXtUnit.toPair)
      ∧ (TorchResNeXt.CIFAR10ResNeXt.make channels init card bw inC
          cls).output_in_features
        = (((TorchResNeXt.CIFAR10ResNeXt.make channels init card bw inC
            cls).stages.flatten.map
            TorchResNeXt.ResNeXtUnit.out_channels).getLast?).getD init) := by
  refine ⟨⟨?_, ?_⟩, ⟨?_, ?_⟩, ⟨?_, ?_⟩⟩
  · exact TorchWrn.chain_stagesUnits_tw channels 0 init
  · simp only [TorchWrn.CIFAR10WRN.make]
    rw [TorchWrn.outs_flatten_tw channels 0 init]
    exact lastOut_getLast channels.flatten init
  · exact GluonWrn.chain_stagesUnits_gw channels 0 init
  · simp only [GluonWrn.CIFAR10WRN.make]
    rw [GluonWrn.outs_flatten_gw channels 0 init]
    exact lastOut_getLast channels.flatten init
  · exact TorchResNeXt.chain_stagesUnits_rx channels card bw 0 init
  · simp only [TorchResNeXt.CIFAR10ResNeXt.make]
    rw [TorchResNeXt.outs_flatten_rx channels card bw 0 init]
    exact lastOut_getLast channels.flatten init

/-- C10: with `pretrained = False` the factories never contact the model
store, and `model_name`, `root` (and `ctx` for the Gluon binding) have no
effect: two calls differing only in those arguments return equal results,
and the store-touched flag is false. -/
theorem claim_c10 (blocks : Int) (w card bw : Nat) (mn1 mn2 : Option String)
    (r1 r2 : String) (Ctx1 Ctx2 : Type) (c1 : Ctx1) (c2 : Ctx2) :
    (TorchWrn.get_wrn blocks w mn1 false r1
        = TorchWrn.get_wrn blocks w mn2 false r2
      ∧ (TorchWrn.get_wrn blocks w mn1 false r1).storeTouched = false)
    ∧ (GluonWrn.get_wrn blocks w mn1 false c1 r1
        = GluonWrn.get_wrn blocks w mn2 false c2 r2
      ∧ (GluonWrn.get_wrn blocks w mn1 false c1 r1).storeTouched = false)
    ∧ (TorchResNeXt.get_resnext_cifar10 blocks card bw mn1 false r1
        = TorchResNeXt.get_resnext_cifar10 blocks card bw mn2 false r2
      ∧ (TorchResNeXt.get_resnext_cifar10 blocks card bw mn1 false
          r1).storeTouched = false) := by
  refine ⟨⟨?_, ?_⟩, ⟨?_, ?_⟩, ⟨?_, ?_⟩⟩
  · simp only [TorchWrn.get_wrn, Bool.false_eq_true, if_false]
  · simp only [TorchWrn.get_wrn, Bool.false_eq_true, if_false]
    split <;> rfl
  · simp only [GluonWrn.get_wrn, Bool.false_eq_true, if_false]
  · simp only [GluonWrn.get_wrn, Bool.false_eq_true, if_false]
    split <;> rfl
  · simp only [TorchResNeXt.get_resnext_cifar10, Bool.false_eq_true, if_false]
  · simp only [TorchResNeXt.get_resnext_cifar10, Bool.false_eq_true, if_false]
    split <;> rfl

end ImgClsMob
